import Mathlib

/-!
Verification of the file-ingestion-and-query pipeline of the multimodal
processing UI (single source file, App.js).  Pure functions of the source are
translated directly; the asynchronous pieces (the file read, the PDF parsing
library, the network call) are modelled by passing their outcomes as explicit
arguments, so every definition is executable.  JavaScript strings are
modelled as Lean strings with list-based primitive operations so that all
facts evaluate by kernel reduction.
-/

namespace App

/-! ## JavaScript string primitives -/

/-- Boolean test that the second list is an initial segment of the first. -/
def listBegins : List Char → List Char → Bool
  | _, [] => true
  | [], _ :: _ => false
  | a :: as, b :: bs => a == b && listBegins as bs

/-- Model of JavaScript startsWith on strings. -/
def beginsWith (s p : String) : Bool := listBegins s.data p.data

/-- Boolean test that the string ends with the given suffix. -/
def endsWithStr (s p : String) : Bool := listBegins s.data.reverse p.data.reverse

/-- ASCII lowercasing, character by character. -/
def lowerAscii (s : String) : String := ⟨s.data.map Char.toLower⟩

/-- Whitespace characters removed by JavaScript trim (ASCII part plus NBSP). -/
def isJsSpace (c : Char) : Bool :=
  c == ' ' || c == '\t' || c == '\n' || c == '\r' || c == '\x0b' || c == '\x0c' || c == ' '

/-- Model of JavaScript trim: strip whitespace from both ends. -/
def jsTrim (s : String) : String :=
  ⟨((s.data.dropWhile isJsSpace).reverse.dropWhile isJsSpace).reverse⟩

/-- Model of JavaScript slice(0, n) on a string: the first n characters. -/
def jsSlice (s : String) (n : Nat) : String := ⟨s.data.take n⟩

/-- Model of JavaScript Array.prototype.join with a separator. -/
def jsJoin (sep : String) : List String → String
  | [] => ""
  | [a] => a
  | a :: rest => a ++ sep ++ jsJoin sep rest

/-! ## Category inference (getFileCategory) -/

/-- Model of the case-insensitive JavaScript regex test
matching a dot followed by one of the extensions at the end of the name. -/
def matchesExtList (name : String) (exts : List String) : Bool :=
  exts.any (fun e => endsWithStr (lowerAscii name) ("." ++ e))

/-- Direct translation of getFileCategory from App.js. -/
def getFileCategory (type name : String) : String :=
  if beginsWith type "text/" || matchesExtList name ["txt", "md", "pdf", "docx", "pptx"] then "text"
  else if beginsWith type "image/" || matchesExtList name ["png", "jpg", "jpeg", "gif", "webp"] then "image"
  else if beginsWith type "audio/" || matchesExtList name ["mp3", "wav", "ogg"] then "audio"
  else if beginsWith type "video/" || matchesExtList name ["mp4", "webm", "mov"] then "video"
  else "other"

/-- Ordered category table: media-type marker, extension list, category name. -/
def categoryTable : List (String × List String × String) :=
  [("text/", (["txt", "md", "pdf", "docx", "pptx"], "text")),
   ("image/", (["png", "jpg", "jpeg", "gif", "webp"], "image")),
   ("audio/", (["mp3", "wav", "ogg"], "audio")),
   ("video/", (["mp4", "webm", "mov"], "video"))]

/-- First row of the table whose rule fires, scanned in order. -/
def findCategory (type name : String) : List (String × List String × String) → String
  | [] => "other"
  | row :: rest =>
    if beginsWith type row.1 || matchesExtList name row.2.1 then row.2.2
    else findCategory type name rest

/-- Amended-claim reading of category inference: the four category rules are
tried in the fixed order text, image, audio, video; a rule fires when the
declared type starts with its marker or the filename carries one of its
extensions (case-insensitively); the first rule that fires decides the
category, and "other" is returned when none fires. -/
def categoryOrdered (type name : String) : String := findCategory type name categoryTable

/-! ## PDF text extraction (extractTextFromPdf) -/

/-- Abstract view of a parsed PDF document as exposed by the extraction
library: a page count and, for each 1-based page number, its text items. -/
structure PdfDoc where
  numPages : Nat
  getPage : Nat → List String

/-- The accumulation loop of extractTextFromPdf: for i from 0 while
i < n, append the text of page i + 1 (items joined with single spaces)
followed by a newline. -/
def extractLoop (pdf : PdfDoc) : Nat → String
  | 0 => ""
  | n + 1 => extractLoop pdf n ++ (String.intercalate " " (pdf.getPage (n + 1)) ++ "\n")

/-- Direct translation of extractTextFromPdf from App.js, running the loop
over all pages of the document. -/
def extractTextFromPdf (pdf : PdfDoc) : String := extractLoop pdf pdf.numPages

/-- The per-page joined text of a document, pages 1 through numPages in
order: page i + 1 contributes its items joined with single spaces. -/
def pageTexts (pdf : PdfDoc) : List String :=
  (List.range pdf.numPages).map (fun i => String.intercalate " " (pdf.getPage (i + 1)))

/-! ## File ingestion (processFile, handleFileUpload, removeFile) -/

/-- Content held by an ingested file: extracted text for PDFs, the raw
buffer for everything else. -/
inductive FileContent where
  | text (s : String)
  | buffer (bytes : List Nat)
deriving DecidableEq

/-- A user-selected file as handed over by the browser: display name,
declared media type, byte size, and raw bytes. -/
structure InputFile where
  name : String
  type : String
  size : Nat
  bytes : List Nat
deriving DecidableEq

/-- The IngestedFile record built by processFile. -/
structure IngestedFile where
  id : Nat
  name : String
  type : String
  size : Nat
  content : FileContent
  category : String
deriving DecidableEq

/-- Direct translation of processFile from App.js.  The external PDF
library is passed as the function parse from raw bytes to a parsed
document, and the timestamp identifier as now. -/
def processFile (parse : List Nat → PdfDoc) (now : Nat) (file : InputFile) : IngestedFile :=
  if file.type = "application/pdf" then
    { id := now, name := file.name, type := file.type, size := file.size,
      content := .text (extractTextFromPdf (parse file.bytes)),
      category := getFileCategory file.type file.name }
  else
    { id := now, name := file.name, type := file.type, size := file.size,
      content := .buffer file.bytes,
      category := getFileCategory file.type file.name }

/-- Direct translation of handleFileUpload from App.js: with no selected
file the state is unchanged; otherwise the whole collection is replaced by
the singleton list holding the processed first selection. -/
def handleFileUpload (parse : List Nat → PdfDoc) (now : Nat) (selected : List InputFile)
    (files : List IngestedFile) : List IngestedFile :=
  match selected with
  | [] => files
  | f :: _ => [processFile parse now f]

/-- Direct translation of removeFile from App.js. -/
def removeFile (id : Nat) (files : List IngestedFile) : List IngestedFile :=
  files.filter (fun f => f.id != id)

/-- Initial value of the files state. -/
def initialFiles : List IngestedFile := []

/-- The operations the UI performs on the files collection. -/
inductive FileOp where
  | upload (parse : List Nat → PdfDoc) (now : Nat) (selected : List InputFile)
  | remove (id : Nat)

/-- Apply one UI operation to the files collection. -/
def applyFileOp (files : List IngestedFile) : FileOp → List IngestedFile
  | .upload parse now selected => handleFileUpload parse now selected files
  | .remove id => removeFile id files

/-! ## Prompt building (buildContext) -/

/-- JavaScript coercion of a content value to a string: raw buffers render
as the ArrayBuffer default toString value. -/
def contentToString : FileContent → String
  | .text s => s
  | .buffer _ => "[object ArrayBuffer]"

/-- The per-file template literal of buildContext in App.js. -/
def fileBlock (f : IngestedFile) : String :=
  "File: " ++ f.name ++ "\n" ++ "Content: " ++ jsSlice (contentToString f.content) 1000 ++ "..."

/-- Direct translation of buildContext from App.js. -/
def buildContext (files : List IngestedFile) : String :=
  jsJoin "\n\n" (files.map fileBlock)

/-- The prompt composed inside handleQuery in App.js. -/
def promptOf (files : List IngestedFile) (query : String) : String :=
  "Context:\n" ++ buildContext files ++ "\n\nQuery:\n" ++ query

/-- Spec formulation of the per-file block: name line, then a content line
holding at most the first 1000 characters of the content converted to text,
followed by the truncation marker. -/
def fileBlockSpec (f : IngestedFile) : String :=
  "File: " ++ f.name ++ "\n" ++ "Content: " ++ jsSlice (contentToString f.content) 1000 ++ "..."

/-- Spec formulation of the whole prompt: the blocks joined by a blank line
(written independently via intersperse), wrapped in the fixed frame. -/
def promptSpec (files : List IngestedFile) (query : String) : String :=
  "Context:\n" ++ String.join (List.intersperse "\n\n" (files.map fileBlockSpec)) ++
    "\n\nQuery:\n" ++ query

/-! ## Query dispatch (handleQuery) -/

/-- A JavaScript value sitting in the answer field of the parsed body. -/
inductive JsValue where
  | str (s : String)
  | num (n : Int)
  | boolv (b : Bool)
  | nullv
deriving DecidableEq

/-- JavaScript truthiness of an answer value. -/
def truthy : JsValue → Bool
  | .str s => s != ""
  | .num n => n != 0
  | .boolv b => b
  | .nullv => false

/-- How a truthy answer value renders as display text. -/
def jsToDisplay : JsValue → String
  | .str s => s
  | .num n => toString n
  | .boolv b => toString b
  | .nullv => "null"

/-- The expression data.answer or fallback from App.js: the fallback fires
whenever the field is absent or its value is falsy. -/
def answerOrFallback (answer : Option JsValue) : String :=
  match answer with
  | some v => if truthy v then jsToDisplay v else "No response found"
  | none => "No response found"

/-- Result of awaiting res.json(): a parse failure with its message, or a
parsed body carrying an optional answer field. -/
inductive BodyResult where
  | malformed (msg : String)
  | parsed (answer : Option JsValue)
deriving DecidableEq

/-- Outcome of the fetch call: a network-level rejection with its message,
or an HTTP response with its ok status and its body parsing result. -/
inductive FetchOutcome where
  | reject (msg : String)
  | response (ok : Bool) (body : BodyResult)
deriving DecidableEq

/-- The UI state touched by handleQuery. -/
structure AppState where
  files : List IngestedFile
  query : String
  response : String
  error : String
  loading : Bool
deriving DecidableEq

/-- Result of a handleQuery run: the updated state, and the prompt sent
over the network when a call was made (none when no call happened). -/
structure QueryResult where
  state : AppState
  request : Option String
deriving DecidableEq

/-- Direct translation of handleQuery from App.js.  The single fetch and
its body parsing are summarised by the outcome argument; the request field
records the prompt of the network call, none when validation returned
before any call. -/
def handleQuery (st : AppState) (outcome : FetchOutcome) : QueryResult :=
  if jsTrim st.query = "" then
    { state := { st with error := "Please enter a question" }, request := none }
  else if st.files.length = 0 then
    { state := { st with error := "Please upload a file" }, request := none }
  else
    let started : AppState := { st with error := "", loading := true }
    let answered : AppState :=
      match outcome with
      | .reject m => { started with error := "Backend error: " ++ m }
      | .response _ (.malformed m) => { started with error := "Backend error: " ++ m }
      | .response _ (.parsed answer) => { started with response := answerOrFallback answer }
    { state := { answered with loading := false }, request := some (promptOf st.files st.query) }

/-! ## Concrete demonstration values -/

/-- A parsing function producing a one-page document with a single item. -/
def demoParse : List Nat → PdfDoc := fun _ => ⟨1, fun _ => ["hello"]⟩

/-- A selected file declared as the PDF MIME type. -/
def demoPdfInput : InputFile := ⟨"doc.pdf", "application/pdf", 3, [1, 2, 3]⟩

/-- An ingested plain-text file. -/
def demoIngested : IngestedFile :=
  ⟨7, "notes.txt", "text/plain", 11, .text "hello world", "text"⟩

/-- A state ready to submit: one file, a non-blank question. -/
def stValid : AppState := ⟨[demoIngested], "what does the file say?", "old answer", "", false⟩

/-- A state violating both preconditions: blank question and no files. -/
def stEmpty : AppState := ⟨[], "   ", "", "", false⟩

/-- A state with a genuine question but no ingested file. -/
def stNoFiles : AppState := ⟨[], "real question", "", "", false⟩

/-! ## Shared lemmas -/

/-- The source template literal and the spec block format agree. -/
theorem fileBlock_eq_spec : fileBlock = fileBlockSpec := rfl

theorem join_nil : String.join ([] : List String) = "" := rfl

theorem join_cons (a : String) (l : List String) :
    String.join (a :: l) = a ++ String.join l := by
  apply String.ext
  simp

theorem join_append_single (l : List String) (s : String) :
    String.join (l ++ [s]) = String.join l ++ s := by
  apply String.ext
  simp

/-- The extraction loop up to n produces exactly the newline-terminated
texts of pages 1 through n, in order. -/
theorem extractLoop_eq (pdf : PdfDoc) :
    ∀ n, extractLoop pdf n =
      String.join ((List.range n).map (fun i => String.intercalate " " (pdf.getPage (i + 1)) ++ "\n"))
  | 0 => by simp [extractLoop, join_nil]
  | n + 1 => by
    rw [extractLoop, extractLoop_eq pdf n, List.range_succ, List.map_append]
    simp [join_append_single]

/-- The JavaScript array join agrees with joining the interspersed list. -/
theorem jsJoin_eq_join_intersperse (sep : String) :
    ∀ l : List String, jsJoin sep l = String.join (List.intersperse sep l)
  | [] => by simp [jsJoin, join_nil]
  | [a] => by simp [jsJoin, join_cons, join_nil]
  | a :: b :: rest => by
    have h1 : jsJoin sep (a :: b :: rest) = a ++ sep ++ jsJoin sep (b :: rest) := rfl
    rw [h1, jsJoin_eq_join_intersperse sep (b :: rest), List.intersperse_cons₂,
      join_cons, join_cons, String.append_assoc]

/-- One files-collection operation keeps the collection at length at most
one: an upload either leaves the state alone or replaces it by a singleton,
and a removal only filters. -/
theorem applyFileOp_le_one (fs : List IngestedFile) (op : FileOp) (h : fs.length ≤ 1) :
    (applyFileOp fs op).length ≤ 1 := by
  cases op with
  | upload parse now selected =>
    cases selected with
    | nil => simpa [applyFileOp, handleFileUpload] using h
    | cons f rest => simp [applyFileOp, handleFileUpload]
  | remove id =>
    calc (applyFileOp fs (.remove id)).length ≤ fs.length := by
          simpa [applyFileOp, removeFile] using List.length_filter_le _ fs
      _ ≤ 1 := h

/-! ## Claims -/

/-- C1 (amended): category inference is the first match over the ordered
category rules text, image, audio, video, each rule firing when the
declared type starts with its marker or the filename carries one of its
extensions case-insensitively, with "other" when no rule fires.  Contrary
to the claim as stated, the type marker is not given priority over the
filename suffixes of earlier categories. -/
theorem getFileCategory_eq_categoryOrdered (type name : String) :
    getFileCategory type name = categoryOrdered type name := by
  simp only [categoryOrdered, categoryTable, findCategory, getFileCategory]

/-- C1 (counterexample): the declared type image/png starts with the image
marker, yet the category of (image/png, photo.txt) is text, not image,
because the text rule inspects the filename suffix before the image rule is
ever reached. -/
theorem image_type_text_suffix_counterexample :
    beginsWith "image/png" "image/" = true
    ∧ getFileCategory "image/png" "photo.txt" = "text"
    ∧ getFileCategory "image/png" "photo.txt" ≠ "image" := by decide

/-- C2 (amended): for a file declared exactly as the PDF MIME type, the
ingested content is the concatenation, in page order 1 through numPages
with no page skipped or duplicated, of each page's items joined by single
spaces and terminated by a newline — so the whole text carries a trailing
newline rather than being newline-separated. -/
theorem processFile_pdf_content (parse : List Nat → PdfDoc) (now : Nat) (file : InputFile)
    (h : file.type = "application/pdf") :
    (processFile parse now file).content =
      .text (String.join ((pageTexts (parse file.bytes)).map (fun t => t ++ "\n"))) := by
  simp only [processFile, h, if_pos, extractTextFromPdf, pageTexts]
  rw [extractLoop_eq]
  simp [List.map_map, Function.comp_def]

/-- C2 (witness): the amended statement evaluated on a concrete one-page
document. -/
theorem processFile_pdf_content_w :
    (processFile demoParse 0 demoPdfInput).content =
      .text (String.join ((pageTexts (demoParse demoPdfInput.bytes)).map (fun t => t ++ "\n"))) :=
  processFile_pdf_content demoParse 0 demoPdfInput rfl

/-- C2 (counterexample): on a one-page document whose only item is hello,
the code produces the newline-terminated text, which differs from the
newline-joined per-page text the claim demands. -/
theorem pdf_trailing_newline_counterexample :
    (processFile demoParse 0 demoPdfInput).content = FileContent.text "hello\n"
    ∧ String.intercalate "\n" (pageTexts (demoParse demoPdfInput.bytes)) = "hello"
    ∧ FileContent.text "hello\n" ≠ FileContent.text "hello" := by decide

/-- C3: the composed prompt is exactly the Context frame around the file
blocks joined by a blank line followed by the Query frame around the
question, and every per-file content segment holds at most 1000 characters
before the truncation marker.  The composition is a pure function, hence
byte-identical across repeated calls on the same inputs. -/
theorem prompt_matches_spec (files : List IngestedFile) (q : String) :
    promptOf files q = promptSpec files q
    ∧ ∀ f, f ∈ files → (jsSlice (contentToString f.content) 1000).length ≤ 1000 := by
  constructor
  · simp only [promptOf, promptSpec, buildContext, fileBlock_eq_spec,
      jsJoin_eq_join_intersperse]
  · intro f _
    simp only [jsSlice, String.length]
    exact le_trans (le_of_eq (List.length_take _ _)) (min_le_left _ _)

/-- C3 (witness): the prompt equality and the content bound on a concrete
single-file list. -/
theorem prompt_matches_spec_w :
    promptOf [demoIngested] "q" = promptSpec [demoIngested] "q"
    ∧ (jsSlice (contentToString demoIngested.content) 1000).length ≤ 1000 :=
  ⟨(prompt_matches_spec [demoIngested] "q").1,
   (prompt_matches_spec [demoIngested] "q").2 demoIngested (by simp)⟩

/-- C4 (amended): a blank question yields the question validation error
with no network call; an empty file list yields the upload validation error
with no network call provided the question check passed first — when both
preconditions fail at once the question message wins. -/
theorem validation_guards (st : AppState) (outcome : FetchOutcome) :
    (jsTrim st.query = "" →
      (handleQuery st outcome).request = none
      ∧ (handleQuery st outcome).state.error = "Please enter a question")
    ∧ (jsTrim st.query ≠ "" → st.files.length = 0 →
      (handleQuery st outcome).request = none
      ∧ (handleQuery st outcome).state.error = "Please upload a file") := by
  constructor
  · intro hq; simp [handleQuery, hq]
  · intro hq hf; simp [handleQuery, hq, hf]

/-- C4 (witness): both validation branches evaluated on concrete states. -/
theorem validation_guards_w :
    ((handleQuery stEmpty (.reject "x")).request = none
      ∧ (handleQuery stEmpty (.reject "x")).state.error = "Please enter a question")
    ∧ ((handleQuery stNoFiles (.reject "x")).request = none
      ∧ (handleQuery stNoFiles (.reject "x")).state.error = "Please upload a file") :=
  ⟨(validation_guards stEmpty (.reject "x")).1 (by decide),
   (validation_guards stNoFiles (.reject "x")).2 (by decide) (by decide)⟩

/-- C4 (counterexample): a submission with zero ingested files does not
always yield the upload message — with a blank question as well, the
displayed error is the question message instead. -/
theorem validation_both_empty :
    stEmpty.files.length = 0
    ∧ (handleQuery stEmpty (.reject "x")).state.error = "Please enter a question"
    ∧ (handleQuery stEmpty (.reject "x")).state.error ≠ "Please upload a file" := by decide

/-- C5: any dispatch failure — network rejection or body parse failure —
with message m is caught and surfaced exactly as the Backend error message
for m, while the previous response value is left unchanged.  The model
performs the single call recorded in the request field, never a second
one. -/
theorem dispatch_failure (st : AppState) (m : String) (ok : Bool)
    (hq : jsTrim st.query ≠ "") (hf : st.files.length ≠ 0) :
    ((handleQuery st (.reject m)).state.error = "Backend error: " ++ m
      ∧ (handleQuery st (.reject m)).state.response = st.response)
    ∧ ((handleQuery st (.response ok (.malformed m))).state.error = "Backend error: " ++ m
      ∧ (handleQuery st (.response ok (.malformed m))).state.response = st.response) := by
  refine ⟨⟨?_, ?_⟩, ⟨?_, ?_⟩⟩ <;> simp [handleQuery, hq, hf]

/-- C5 (witness): the timeout scenario on a concrete valid state. -/
theorem dispatch_failure_w :
    ((handleQuery stValid (.reject "timeout")).state.error = "Backend error: " ++ "timeout"
      ∧ (handleQuery stValid (.reject "timeout")).state.response = stValid.response)
    ∧ ((handleQuery stValid (.response true (.malformed "timeout"))).state.error
        = "Backend error: " ++ "timeout"
      ∧ (handleQuery stValid (.response true (.malformed "timeout"))).state.response
        = stValid.response) :=
  dispatch_failure stValid "timeout" true (by decide) (by decide)

/-- C6 (amended): the HTTP status of the response is never inspected — the
result of handleQuery is identical for an OK and a non-OK status carrying
the same body — and a dispatch error with the Backend error message arises
from a response only when its body fails to parse. -/
theorem status_not_inspected (st : AppState) (body : BodyResult) (ok1 ok2 : Bool) (m : String) :
    handleQuery st (.response ok1 body) = handleQuery st (.response ok2 body)
    ∧ (jsTrim st.query ≠ "" → st.files.length ≠ 0 →
      (handleQuery st (.response ok1 (.malformed m))).state.error = "Backend error: " ++ m) := by
  constructor
  · cases body <;> simp [handleQuery]
  · intro hq hf; simp [handleQuery, hq, hf]

/-- C6 (witness): status independence and the parse-failure error on
concrete inputs. -/
theorem status_not_inspected_w :
    handleQuery stValid (.response false (.malformed "boom"))
      = handleQuery stValid (.response true (.malformed "boom"))
    ∧ (handleQuery stValid (.response false (.malformed "boom"))).state.error
      = "Backend error: " ++ "boom" :=
  ⟨(status_not_inspected stValid (.malformed "boom") false true "boom").1,
   (status_not_inspected stValid (.malformed "boom") false true "boom").2 (by decide) (by decide)⟩

/-- C6 (counterexample): a non-OK response whose body parses with an answer
is processed as a normal answer — the response text is set and no error is
raised, contradicting the claim that non-OK responses are rendered as
Backend error messages. -/
theorem non_ok_is_answer :
    (handleQuery stValid (.response false (.parsed (some (.str "it says hi"))))).state.response
      = "it says hi"
    ∧ (handleQuery stValid (.response false (.parsed (some (.str "it says hi"))))).state.error
      = "" := by decide

/-- C7: a parsed body with no answer field displays exactly the fallback
text and sets no error. -/
theorem missing_answer_fallback (st : AppState) (ok : Bool)
    (hq : jsTrim st.query ≠ "") (hf : st.files.length ≠ 0) :
    (handleQuery st (.response ok (.parsed none))).state.response = "No response found"
    ∧ (handleQuery st (.response ok (.parsed none))).state.error = "" := by
  constructor <;> simp [handleQuery, hq, hf, answerOrFallback]

/-- C7 (witness): the fallback on a concrete valid state. -/
theorem missing_answer_fallback_w :
    (handleQuery stValid (.response true (.parsed none))).state.response = "No response found"
    ∧ (handleQuery stValid (.response true (.parsed none))).state.error = "" :=
  missing_answer_fallback stValid true (by decide) (by decide)

/-- C8: every sequence of UI operations on the files collection starting
from the empty initial state leaves at most one IngestedFile, because an
upload replaces the whole collection with a singleton and removal only
filters. -/
theorem files_at_most_one (ops : List FileOp) :
    (ops.foldl applyFileOp initialFiles).length ≤ 1 := by
  have h : ∀ (l : List FileOp) (fs : List IngestedFile), fs.length ≤ 1 →
      (l.foldl applyFileOp fs).length ≤ 1 := by
    intro l
    induction l with
    | nil => intro fs h; simpa using h
    | cons op rest ih => intro fs h; exact ih _ (applyFileOp_le_one fs op h)
  exact h ops initialFiles (by simp [initialFiles])

/-- C9: when the question is blank and the file list is empty at once, the
question check takes precedence — the error is the question message, not
the upload message — and no network call occurs. -/
theorem question_precedence (st : AppState) (outcome : FetchOutcome)
    (hq : jsTrim st.query = "") (_hf : st.files.length = 0) :
    (handleQuery st outcome).state.error = "Please enter a question"
    ∧ (handleQuery st outcome).state.error ≠ "Please upload a file"
    ∧ (handleQuery st outcome).request = none := by
  refine ⟨?_, ?_, ?_⟩ <;> simp [handleQuery, hq]

/-- C9 (witness): the precedence on the concrete doubly-invalid state. -/
theorem question_precedence_w :
    (handleQuery stEmpty (.reject "x")).state.error = "Please enter a question"
    ∧ (handleQuery stEmpty (.reject "x")).state.error ≠ "Please upload a file"
    ∧ (handleQuery stEmpty (.reject "x")).request = none :=
  question_precedence stEmpty (.reject "x") (by decide) (by decide)

/-- C10: an answer field that is present but falsy — empty string, null,
false, zero — triggers the fallback text, exactly as an absent field
does. -/
theorem falsy_answer_fallback (st : AppState) (ok : Bool) (v : JsValue)
    (hq : jsTrim st.query ≠ "") (hf : st.files.length ≠ 0) (hv : truthy v = false) :
    (handleQuery st (.response ok (.parsed (some v)))).state.response = "No response found"
    ∧ truthy (.str "") = false ∧ truthy .nullv = false ∧ truthy (.boolv false) = false := by
  refine ⟨?_, by decide, by decide, by decide⟩
  simp [handleQuery, hq, hf, answerOrFallback, hv]

/-- C10 (witness): the fallback for the present-but-empty-string answer on
a concrete valid state. -/
theorem falsy_answer_fallback_w :
    (handleQuery stValid (.response true (.parsed (some (.str ""))))).state.response
      = "No response found"
    ∧ truthy (.str "") = false ∧ truthy .nullv = false ∧ truthy (.boolv false) = false :=
  falsy_answer_fallback stValid true (.str "") (by decide) (by decide) (by decide)

end App
